import Mathlib

/-!
Verification of the mcp-dataportal proxy tools.

The development shallowly embeds the request-normalization and
response-shaping layer of the repository:

* the URL canonicalizer `_normalize_document_url` shared (as two identical
  copies) by `src/tools/riksdagen/dokument.py` and
  `src/tools/riksdagen/kalender.py`;
* the query-parameter normalization pipeline of the Skatteverket tools
  (`src/tools/skatteverket/typkoder_taxeringsenheter.py` and
  `src/tools/skatteverket/fastighetsskatt_avgifter.py`);
* the response decoding / empty-sentinel presentation of the list tools
  (`list_documents` in `dokument.py`, `list_members_ledamot` in `ledamot.py`);
* the transport step (`response.raise_for_status()`) and the static
  configuration of every outbound HTTP GET call site.

Python strings are modelled as `List Char`; the Python `str` methods used by
the source (`startswith`, `endswith`, `in`, `rsplit(".", 1)[0]`, `[:-4]`,
`strip()`) are given executable models below and related to Mathlib's
`List.IsPrefix` / `List.IsSuffix` / `List.IsInfix`.
-/

namespace McpDataportal

/-- Python strings, modelled as lists of characters. -/
abbrev Str := List Char

/-- Shorthand turning a Lean string literal into its character list. -/
def S (s : String) : Str := s.data

/-- Python substring test `pat in s`. -/
def pyContains (s pat : Str) : Bool :=
  match s with
  | [] => pat.isEmpty
  | c :: t => pat.isPrefixOf (c :: t) || pyContains t pat

/-- Python `s.startswith(pre)`. -/
def pyStartsWith (s pre : Str) : Bool := pre.isPrefixOf s

/-- Python `s.endswith(suf)`. -/
def pyEndsWith (s suf : Str) : Bool := suf.isSuffixOf s

/-- Python `s.rsplit(".", 1)[0]`: everything before the last dot, or the
whole string when no dot occurs. -/
def rsplitDotHead (s : Str) : Str :=
  if ('.') ∈ s then ((s.reverse.dropWhile (fun c => c ≠ ('.'))).drop 1).reverse else s

/-- Python `s[:-n]` for `n ≤ len s` (and `""` when `n > len s`). -/
def pyDropRight (s : Str) (n : Nat) : Str := s.take (s.length - n)

/-- Python `s.strip()`: remove leading and trailing whitespace. -/
def pyStrip (s : Str) : Str :=
  ((s.dropWhile Char.isWhitespace).reverse.dropWhile Char.isWhitespace).reverse

/-- The `fmt: Literal["text", "html", "json"]` parameter of
`_normalize_document_url`. -/
inductive Fmt
  | text
  | html
  | json
deriving DecidableEq

/-- The extension string corresponding to a requested format. -/
def Fmt.ext : Fmt → Str
  | .text => S "text"
  | .html => S "html"
  | .json => S "json"

/-- Constant `DOCUMENT_BASE_URL` from `dokument.py` / `kalender.py`. -/
def DOCUMENT_BASE_URL : Str := S "https://data.riksdagen.se/dokument/"

/-- Constant `API_BASE_URL` from `dokument.py` / `kalender.py` / `ledamot.py`. -/
def RIKSDAGEN_API_BASE_URL : Str := S "https://data.riksdagen.se/dokumentlista/"

/-- Constant `API_BASE_URL` from `typkoder_taxeringsenheter.py`. -/
def TYPKOD_API_BASE_URL : Str :=
  S "https://skatteverket.entryscape.net/rowstore/dataset/0db155d8-4a46-4b14-aba6-3531ef4141c7"

/-- Constant `API_BASE_URL` from `fastighetsskatt_avgifter.py`. -/
def FASTIGHETSSKATT_API_BASE_URL : Str :=
  S "https://skatteverket.entryscape.net/rowstore/dataset/ed6459d5-66ae-48a7-bcc8-4bd128f719db"

/-- The branch cascade of `_normalize_document_url` (`dokument.py`
lines 162-174, identical in `kalender.py` lines 57-69): absolute URLs are
kept, protocol-relative URLs get the secure scheme, root-relative paths are
joined to the content host, and anything else is treated as a bare `dok_id`. -/
def branchUrl (value : Str) (fmt : Fmt) : Str :=
  if pyStartsWith value (S "http://") || pyStartsWith value (S "https://") then
    value
  else if pyStartsWith value (S "//") then
    S "https:" ++ value
  else if pyStartsWith value (S "/") then
    S "https://data.riksdagen.se" ++ value
  else
    DOCUMENT_BASE_URL ++ value ++ S "." ++ fmt.ext

/-- First statement of the coercion block of `_normalize_document_url`
(`dokument.py` lines 178-179): replace a known `.text`/`.html`/`.json`
extension by the requested format's extension. -/
def coerceExt (url : Str) (fmt : Fmt) : Str :=
  if pyEndsWith url (S ".text") || pyEndsWith url (S ".html") ||
      pyEndsWith url (S ".json") then
    rsplitDotHead url ++ S "." ++ fmt.ext
  else url

/-- Second statement of the coercion block of `_normalize_document_url`
(`dokument.py` lines 181-182): rewrite a trailing legacy `.txt` to `.text`. -/
def coerceTxt (url : Str) : Str :=
  if pyEndsWith url (S ".txt") then pyDropRight url 4 ++ S ".text" else url

/-- The format-coercion stage of `_normalize_document_url` (`dokument.py`
lines 176-184): the two sequential rewrites above, guarded by the URL
containing the `/dokument/` segment. -/
def coerceFormat (url : Str) (fmt : Fmt) : Str :=
  if pyContains url (S "/dokument/") then coerceTxt (coerceExt url fmt)
  else url

/-- Model of `_normalize_document_url(value, fmt)`: raises `ValueError` on an
empty `value` (Python falsiness of `str`), otherwise the branch cascade
followed by format coercion. -/
def normalize_document_url (value : Str) (fmt : Fmt) : Except String Str :=
  if value.isEmpty then .error "Missing dok_id or document URL"
  else .ok (coerceFormat (branchUrl value fmt) fmt)

/-- A URL that starts with one of the absolute schemes the canonicalizer
produces. -/
def IsHttpUrl (u : Str) : Prop :=
  S "http://" <+: u ∨ S "https://" <+: u

/-- What `fetch_document` does before any network access: either the
immediate `return ""` taken when `_normalize_document_url` raises, or an
HTTP GET against the canonicalized URL. -/
inductive FetchPlan
  | immediate (response : Str)
  | get (url : Str)
deriving DecidableEq

/-- The pre-network control flow of `fetch_document` (`dokument.py`
lines 302-306): a `ValueError` from the canonicalizer is caught and turned
into an empty-string result; otherwise the canonical URL is fetched. -/
def fetch_document_plan (dok_id_or_url : Str) (fmt : Fmt) : FetchPlan :=
  match normalize_document_url dok_id_or_url fmt with
  | .error _ => .immediate []
  | .ok url => .get url

/-- A query-parameter value: Python `str` or `int` (the only two types that
occur in the params dicts of the Skatteverket tools). -/
inductive PVal
  | str (s : Str)
  | int (n : Int)
deriving DecidableEq

/-- Python `v.strip() if isinstance(v, str) else v`. -/
def stripVal : PVal → PVal
  | .str s => .str (pyStrip s)
  | .int n => .int n

/-- Model of `TaxeringsenhetRequest` (`typkoder_taxeringsenheter.py`
lines 54-59). `typkod` and `beskrivning` are genuine pydantic fields
defaulting to `""`; the underscore-named `_limit`, `_offset` and
`_callback` attributes are pydantic private attributes, stored here as
`limit`, `offset` and `callback` — every instance carries their class
defaults (see `mkTaxeringsenhetRequest`). -/
structure TaxeringsenhetRequest where
  typkod : Option Str := some []
  beskrivning : Option Str := some []
  limit : Int := 10
  offset : Int := 0
  callback : Option Str := none
deriving DecidableEq

/-- Model of `FastighetsskattAvgiftRequest` (`fastighetsskatt_avgifter.py`
lines 70-139): seven optional string filters defaulting to `""`, which are
genuine pydantic fields, plus the underscore-named `_limit` / `_offset`
pydantic private attributes, stored here as `limit` / `offset` and carrying
their class defaults on every instance. -/
structure FastighetsskattAvgiftRequest where
  uppdateringsdatum : Option Str := some []
  gruppering : Option Str := some []
  statistikterm : Option Str := some []
  antal : Option Str := some []
  belopp : Option Str := some []
  grupperingsvarde : Option Str := some []
  inkomstar : Option Str := some []
  limit : Int := 10
  offset : Int := 0
deriving DecidableEq

/-- Validation declared on an optional string field via `Field(max_length=n)`. -/
def maxLenOk : Option Str → Nat → Bool
  | none, _ => true
  | some s, n => decide (s.length ≤ n)

/-- Construction of a `TaxeringsenhetRequest`, following pydantic's
documented treatment of underscore-named attributes: `_limit`, `_offset`
and `_callback` are private attributes rather than model fields, so the
`Field(strict=True, ge=…, le=…)` metadata declared on them never validates
anything, constructor keyword arguments for them are silently ignored
(default `extra='ignore'`), and every instance carries the class defaults
`_limit = 10`, `_offset = 0`, `_callback = None`. Only the genuine string
fields are validated, by their declared `max_length=5` / `max_length=100`. -/
def mkTaxeringsenhetRequest (typkod beskrivning : Option Str) :
    Except String TaxeringsenhetRequest :=
  if maxLenOk typkod 5 && maxLenOk beskrivning 100 then
    .ok { typkod := typkod, beskrivning := beskrivning, limit := 10,
          offset := 0, callback := none }
  else .error "validation error for TaxeringsenhetRequest"

/-- Construction of a `FastighetsskattAvgiftRequest`: the seven string
filters are genuine pydantic fields with no constraining validators, while
the underscore-named `_limit` / `_offset` are private attributes — their
`ge`/`le` metadata never runs, constructor keywords for them are silently
ignored, and every instance carries the defaults `_limit = 10`,
`_offset = 0`. Construction always succeeds. -/
def mkFastighetsskattAvgiftRequest
    (uppdateringsdatum gruppering statistikterm antal belopp grupperingsvarde
      inkomstar : Option Str) : FastighetsskattAvgiftRequest :=
  { uppdateringsdatum := uppdateringsdatum, gruppering := gruppering,
    statistikterm := statistikterm, antal := antal, belopp := belopp,
    grupperingsvarde := grupperingsvarde, inkomstar := inkomstar,
    limit := 10, offset := 0 }

/-- The request constructed by the `list_taxeringsenhet_typkoder` tool
(`typkoder_taxeringsenheter.py` line 169): the caller's pagination arguments
are passed as `_limit=` / `_offset=` constructor keywords, which pydantic
silently drops, so the constructed request does not depend on them; the
string filters take their defaults `""`. -/
def list_taxeringsenhet_typkoder_request (_limit _offset : Int) :
    Except String TaxeringsenhetRequest :=
  mkTaxeringsenhetRequest (some []) (some [])

/-- The request constructed by the `list_fastighetsskatt_avgift` tool
(`fastighetsskatt_avgifter.py` line 241): likewise the `_limit=` /
`_offset=` keywords are silently dropped and every field takes its
default. -/
def list_fastighetsskatt_avgift_request (_limit _offset : Int) :
    FastighetsskattAvgiftRequest :=
  mkFastighetsskattAvgiftRequest (some []) (some []) (some []) (some [])
    (some []) (some []) (some [])

/-- The literal `params` dict built by `make_request`
(`typkoder_taxeringsenheter.py` lines 66-72), before the cleanup passes;
`none` models Python `None`. -/
def typkoder_raw_params (r : TaxeringsenhetRequest) : List (Str × Option PVal) :=
  [(S "typkod", r.typkod.map PVal.str),
   (S "beskrivning", r.beskrivning.map PVal.str),
   (S "_limit", some (PVal.int r.limit)),
   (S "_offset", some (PVal.int r.offset)),
   (S "_callback", r.callback.map PVal.str)]

/-- The two cleanup passes both Skatteverket `make_request` functions share
(`typkoder_taxeringsenheter.py` lines 77-81, `fastighetsskatt_avgifter.py`
lines 155-159): drop empty-string values, then strip string values. -/
def remove_empty_then_strip (params : List (Str × PVal)) : List (Str × PVal) :=
  (params.filter (fun kv => decide (kv.2 ≠ PVal.str []))).map
    (fun kv => (kv.1, stripVal kv.2))

/-- The full parameter pipeline of `make_request` in
`typkoder_taxeringsenheter.py` (lines 66-81): build the dict, remove `None`
values, remove empty strings, strip string values. -/
def typkoder_make_request_params (r : TaxeringsenhetRequest) : List (Str × PVal) :=
  remove_empty_then_strip
    ((typkoder_raw_params r).filterMap (fun kv => kv.2.map (fun v => (kv.1, v))))

/-- The parameter pipeline of `make_request` in `fastighetsskatt_avgifter.py`
(lines 150-159), taking the output of
`request.model_dump(by_alias=True, exclude_none=True, exclude_unset=True)`
as input. -/
def fastighetsskatt_make_request_params (dumped : List (Str × PVal)) :
    List (Str × PVal) :=
  remove_empty_then_strip dumped

/-- Model of the `SokData` schema of `dokument.py` (lines 17-33). -/
structure SokData where
  titel : Option Str := none
  undertitel : Option Str := none
  soktyp : Option Str := none
  statusrad : Option Str := none
  brodsmula : Option Str := none
  pari_kod : Option Str := none
  parti_namn : Option Str := none
  parti_website_url : Option Str := none
  parti_website_namn : Option Str := none
  parti_epost : Option Str := none
  parti_telefon : Option Str := none
  parti_telefontider : Option Str := none
  parti_mandat : Option Str := none
  kalenderprio : Option Str := none

/-- Model of the `Avdelning` schema of `dokument.py` (lines 36-37). -/
structure Avdelning where
  avdelning : Option (List Str) := none

/-- Model of the `Dokument` schema of `dokument.py` (lines 50-111). -/
structure Dokument where
  traff : Option Str := none
  domain : Option Str := none
  database : Option Str := none
  datum : Option Str := none
  id : Option Str := none
  publicerad : Option Str := none
  systemdatum : Option Str := none
  undertitel : Option Str := none
  kalla : Option Str := none
  dok_id : Option Str := none
  dokumentformat : Option Str := none
  dokument_url_text : Option Str := none
  dokument_url_html : Option Str := none
  inlamnad : Option Str := none
  motionstid : Option Str := none
  tilldelat : Option Str := none
  lang : Option Str := none
  url : Option Str := none
  relurl : Option Str := none
  titel : Option Str := none
  rm : Option Str := none
  organ : Option Str := none
  relaterat_id : Option Str := none
  doktyp : Option Str := none
  typ : Option Str := none
  subtyp : Option Str := none
  beteckning : Option Str := none
  tempbeteckning : Option Str := none
  nummer : Option Str := none
  status : Option Str := none
  score : Option Str := none
  sokdata : Option SokData := none
  summary : Option Str := none
  notisrubrik : Option Str := none
  notis : Option Str := none
  avdelningar : Option Avdelning := none
  struktur : Option Str := none
  audio : Option Str := none
  video : Option Str := none
  debattgrupp : Option Str := none
  debattdag : Option Str := none
  beslutsdag : Option Str := none
  beredningsdag : Option Str := none
  justeringsdag : Option Str := none
  beslutad : Option Str := none
  debattsekunder : Option Str := none
  ardometype : Option Str := none
  reservationer : Option Str := none
  debatt : Option Str := none
  debattnamn : Option Str := none
  dokumentnamn : Option Str := none

/-- Model of the `DokumentLista` schema of `dokument.py` (lines 114-137);
the fields aliased to `@ms`, `@version`, ... in the JSON payload are stored
under their Python names. -/
structure DokumentLista where
  ms : Option Int := none
  version : Option Str := none
  q : Option Str := none
  varning : Option Str := none
  datum : Option Str := none
  nasta_sida : Option Str := none
  sida : Option Str := none
  sidor : Option Str := none
  traff_fran : Option Str := none
  traff_till : Option Str := none
  traffar : Option Str := none
  dokument : Option (List Dokument) := none

/-- Model of the `DokumentResponse` schema of `dokument.py` (lines 150-151). -/
structure DokumentResponse where
  dokumentlista : Option DokumentLista := none

/-- Model of the `Uppgift` schema of `ledamot.py` (lines 37-48). -/
structure Uppgift where
  kod : Option Str := none
  uppgift : Option Str := none
  typ : Option Str := none

/-- Model of the `PersonUppgift` schema of `ledamot.py` (lines 51-57). -/
structure PersonUppgift where
  uppgift : Option (List Uppgift) := none

/-- Model of the `Uppdrag` schema of `ledamot.py` (lines 60-78); `from_`
models the field aliased to `from` in the payload. -/
structure Uppdrag where
  organ_kod : Option Str := none
  roll_kod : Option Str := none
  roll_kod_en : Option Str := none
  ordningsnummer : Option Str := none
  status : Option Str := none
  typ : Option Str := none
  from_ : Option Str := none
  tom : Option Str := none
  uppgift : Option Str := none
  uppgift_en : Option Str := none
  organ_sortering : Option Str := none
  sortering : Option Str := none

/-- Model of the `PersonUppdrag` schema of `ledamot.py` (lines 81-87). -/
structure PersonUppdrag where
  uppdrag : Option (List Uppdrag) := none

/-- Model of the `AvdelningList` schema of `ledamot.py` (lines 90-96). -/
structure AvdelningList where
  avdelning : Option (List Str) := none

/-- Model of the `LedamotItem` schema of `ledamot.py` (lines 99-154); the
permissive `dict` blobs (`sokdata`) are modelled as string association
lists. -/
structure LedamotItem where
  traff : Option Str := none
  domain : Option Str := none
  database : Option Str := none
  datum : Option Str := none
  id : Option Str := none
  publicerad : Option Str := none
  systemdatum : Option Str := none
  undertitel : Option Str := none
  kalla : Option Str := none
  kall_id : Option Str := none
  lang : Option Str := none
  url : Option Str := none
  relurl : Option Str := none
  titel : Option Str := none
  status : Option Str := none
  score : Option Str := none
  struktur : Option Str := none
  debattnamn : Option Str := none
  dokumentnamn : Option Str := none
  sokdata : Option (List (Str × Str)) := none
  avdelning : Option Str := none
  avdelningar : Option AvdelningList := none
  parti : Option Str := none
  efternamn : Option Str := none
  tilltalsnamn : Option Str := none
  bokstav : Option Str := none
  iort : Option Str := none
  fodd_ar : Option Str := none
  valkrets : Option Str := none
  personuppgift : Option PersonUppgift := none
  personuppdrag : Option PersonUppdrag := none
  summary : Option Str := none
  notisrubrik : Option Str := none
  notis : Option Str := none

/-- Model of the `LedamotLista` schema of `ledamot.py` (lines 157-186). -/
structure LedamotLista where
  ms : Option Str := none
  version : Option Str := none
  q : Option Str := none
  varning : Option Str := none
  datum : Option Str := none
  nasta_sida : Option Str := none
  sida : Option Str := none
  sidor : Option Str := none
  traff_fran : Option Str := none
  traff_till : Option Str := none
  traffar : Option Str := none
  facettlista : Option (List (Str × Str)) := none
  dokument : Option (List LedamotItem) := none

/-- Model of the `LedamotResponse` schema of `ledamot.py` (lines 189-192). -/
structure LedamotResponse where
  dokumentlista : Option LedamotLista := none

/-- Model of the `TypKod` schema of `typkoder_taxeringsenheter.py`
(lines 40-42). -/
structure TypKod where
  typkod : Str
  beskrivning : Str
deriving DecidableEq

/-- Model of the `TaxeringsenhetReponse` schema of
`typkoder_taxeringsenheter.py` (lines 45-51). -/
structure TaxeringsenhetReponse where
  next : Option Str := some []
  resultCount : Option Int := some 0
  offset : Int := 0
  limit : Int := 10
  queryTime : Option Int := some 0
  results : List TypKod := []
deriving DecidableEq

/-- A top-level value of a decoded `dokumentlista` JSON payload: either a
well-formed `DokumentLista` object or something that fails validation. -/
inductive DokumentlistaJson
  | dlista (d : DokumentLista)
  | malformed

/-- A top-level value of a decoded `ledamot` JSON payload. -/
inductive LedamotJson
  | llista (d : LedamotLista)
  | malformed

/-- Decoding `DokumentResponse(**data)` (`dokument.py` line 231): the single
declared field `dokumentlista` defaults to `None` when the key is absent
from the payload, and decoding fails only when the key is present with an
ill-formed value. -/
def decodeDokumentResponse (payload : List (Str × DokumentlistaJson)) :
    Except String DokumentResponse :=
  match payload.lookup (S "dokumentlista") with
  | none => .ok { dokumentlista := none }
  | some (.dlista d) => .ok { dokumentlista := some d }
  | some .malformed => .error "validation error for DokumentResponse"

/-- Decoding `LedamotResponse(**data)` (`ledamot.py` line 241). -/
def decodeLedamotResponse (payload : List (Str × LedamotJson)) :
    Except String LedamotResponse :=
  match payload.lookup (S "dokumentlista") with
  | none => .ok { dokumentlista := none }
  | some (.llista d) => .ok { dokumentlista := some d }
  | some .malformed => .error "validation error for LedamotResponse"

/-- Result presentation of `list_documents` (`dokument.py` lines 276-280):
a pydantic model instance is always truthy, so `if response.dokumentlista:`
distinguishes exactly `None` from a parsed `DokumentLista`; `None` becomes
the empty-string sentinel. -/
def list_documents_result (r : DokumentResponse) : Sum Str DokumentLista :=
  match r.dokumentlista with
  | some d => .inr d
  | none => .inl []

/-- Result presentation of `list_members_ledamot` (`ledamot.py`
lines 297-301). -/
def list_members_result (r : LedamotResponse) : Sum Str LedamotLista :=
  match r.dokumentlista with
  | some d => .inr d
  | none => .inl []

/-- The error raised by the transport layer for a failed upstream exchange. -/
inductive TransportError
  | httpStatus (code : Nat)
deriving DecidableEq

/-- A fatal tool failure: transport error or decode/validation error. -/
inductive ToolError
  | transport (e : TransportError)
  | decode (msg : String)

/-- Modelled from the transport library behavior the spec relies on (§4.3):
`httpx.Response.raise_for_status()` returns normally for a 2xx status and
raises for every other status. -/
def raise_for_status (status : Nat) : Except TransportError Unit :=
  if 200 ≤ status ∧ status < 300 then .ok () else .error (.httpStatus status)

/-- The response handling of `make_request` in `dokument.py` (lines 221-231):
exactly one exchange, `raise_for_status`, then decode; no retry and no
fallback on failure. -/
def dokument_make_request (status : Nat) (payload : List (Str × DokumentlistaJson)) :
    Except ToolError DokumentResponse :=
  match raise_for_status status with
  | .error e => .error (.transport e)
  | .ok _ =>
    match decodeDokumentResponse payload with
    | .error m => .error (.decode m)
    | .ok r => .ok r

/-- The response handling of `_make_request` in `ledamot.py` (lines 231-241). -/
def ledamot_make_request (status : Nat) (payload : List (Str × LedamotJson)) :
    Except ToolError LedamotResponse :=
  match raise_for_status status with
  | .error e => .error (.transport e)
  | .ok _ =>
    match decodeLedamotResponse payload with
    | .error m => .error (.decode m)
    | .ok r => .ok r

/-- The response handling of `make_request` in
`typkoder_taxeringsenheter.py` (lines 85-94): one exchange,
`raise_for_status`, then the parsed response. -/
def typkoder_make_request (status : Nat) (resp : TaxeringsenhetReponse) :
    Except ToolError TaxeringsenhetReponse :=
  match raise_for_status status with
  | .error e => .error (.transport e)
  | .ok _ => .ok resp

/-- End-to-end result of `list_documents` for a given upstream response:
`make_request` followed by the sentinel presentation. -/
def list_documents (status : Nat) (payload : List (Str × DokumentlistaJson)) :
    Except ToolError (Sum Str DokumentLista) :=
  (dokument_make_request status payload).map list_documents_result

/-- End-to-end result of `list_members_ledamot` for a given upstream
response. -/
def list_members_ledamot (status : Nat) (payload : List (Str × LedamotJson)) :
    Except ToolError (Sum Str LedamotLista) :=
  (ledamot_make_request status payload).map list_members_result

/-- The static configuration of one outbound `client.get(...)` call site:
URL (or base URL), `Accept` header, and the `timeout=` argument
(`none` when the call site passes no timeout). -/
structure RequestConfig where
  url : Str
  accept : Str
  timeoutSeconds : Option Nat
deriving DecidableEq

/-- Call site `dokument.py` lines 222-227 (`make_request`). -/
def dokument_list_request_config : RequestConfig :=
  { url := RIKSDAGEN_API_BASE_URL, accept := S "application/json",
    timeoutSeconds := some 30 }

/-- Call site `dokument.py` lines 310-317 (`fetch_document`). -/
def fetch_document_request_config (fmt : Fmt) (url : Str) : RequestConfig :=
  { url := url,
    accept := if fmt = Fmt.json then S "application/json"
      else S "text/plain, text/html; q=0.9, */*; q=0.8",
    timeoutSeconds := some 30 }

/-- Call site `kalender.py` lines 122-127 (`make_request`). -/
def kalender_list_request_config : RequestConfig :=
  { url := RIKSDAGEN_API_BASE_URL, accept := S "application/json",
    timeoutSeconds := some 30 }

/-- Call site `kalender.py` lines 226-233 (`fetch_kalender_handelse`). -/
def fetch_kalender_request_config (fmt : Fmt) (url : Str) : RequestConfig :=
  { url := url,
    accept := if fmt = Fmt.json then S "application/json"
      else S "text/plain, text/html; q=0.9, */*; q=0.8",
    timeoutSeconds := some 30 }

/-- Call site `ledamot.py` lines 232-237 (`_make_request`). -/
def ledamot_list_request_config : RequestConfig :=
  { url := RIKSDAGEN_API_BASE_URL, accept := S "application/json",
    timeoutSeconds := some 30 }

/-- Call site `typkoder_taxeringsenheter.py` lines 86-88 (`make_request`):
no `timeout=` argument is passed. -/
def typkoder_request_config : RequestConfig :=
  { url := TYPKOD_API_BASE_URL, accept := S "application/json",
    timeoutSeconds := none }

/-- Call site `fastighetsskatt_avgifter.py` lines 164-166 (`make_request`):
no `timeout=` argument is passed. -/
def fastighetsskatt_request_config : RequestConfig :=
  { url := FASTIGHETSSKATT_API_BASE_URL, accept := S "application/json",
    timeoutSeconds := none }

/-! ### Facts about the string model -/

lemma startsWith_true {s pre : Str} : pyStartsWith s pre = true ↔ pre <+: s := by
  unfold pyStartsWith
  exact List.isPrefixOf_iff_prefix

lemma endsWith_true {s suf : Str} : pyEndsWith s suf = true ↔ suf <:+ s := by
  unfold pyEndsWith
  exact List.isSuffixOf_iff_suffix

lemma contains_true {s pat : Str} : pyContains s pat = true ↔ pat <:+: s := by
  induction s with
  | nil =>
    unfold pyContains
    rw [List.isEmpty_iff]
    constructor
    · rintro rfl
      exact List.infix_rfl
    · rintro ⟨a, b, hab⟩
      rcases List.append_eq_nil.mp hab with ⟨h₁, -⟩
      exact (List.append_eq_nil.mp h₁).2
  | cons c t ih =>
    unfold pyContains
    rw [Bool.or_eq_true, List.isPrefixOf_iff_prefix, ih]
    exact List.infix_cons_iff.symm

/-- A prefix of `a ++ s` whose last character does not occur in `s` is
already a prefix of `a`. -/
lemma shielded_of_append {q a s : Str} {c : Char} (hp : q ++ [c] <+: a ++ s)
    (hc : c ∉ s) : q ++ [c] <+: a := by
  rcases le_or_lt (q ++ [c]).length a.length with hle | hlt
  · have htk := List.prefix_iff_eq_take.mp hp
    rw [List.take_append_eq_append_take, Nat.sub_eq_zero_of_le hle, List.take_zero,
      List.append_nil] at htk
    rw [htk]
    exact List.take_prefix _ _
  · exfalso
    have htk := List.prefix_iff_eq_take.mp hp
    rw [List.take_append_eq_append_take, List.take_of_length_le (le_of_lt hlt)] at htk
    -- `q ++ [c] = a ++ s.take k` with `k ≥ 1`
    have hk1 : 1 ≤ (q ++ [c]).length - a.length := by omega
    have hkle : (q ++ [c]).length - a.length ≤ s.length := by
      have hlen := hp.length_le
      rw [List.length_append a s] at hlen
      omega
    set k := (q ++ [c]).length - a.length with hk
    have hne : s.take k ≠ [] := by
      intro hnil
      have := congrArg List.length hnil
      rw [List.length_take] at this
      simp only [List.length_nil] at this
      omega
    -- the last char of the two sides of `htk`: `c` on the left, an element
    -- of `s.take k` on the right
    have h1 : (q ++ [c]).getLast? = some c := List.getLast?_concat q
    rw [htk, List.getLast?_append_of_ne_nil a hne] at h1
    obtain ⟨hne2, heq⟩ := List.mem_getLast?_eq_getLast (Option.mem_def.mpr h1)
    have h3 : c ∈ s.take k := by
      rw [heq]
      exact List.getLast_mem hne2
    exact hc (List.mem_of_mem_take h3)

/-- An infix of `a ++ s` whose last character does not occur in `s` is
already an infix of `a`. -/
lemma isInfixShielded {q a s : Str} {c : Char} (h : q ++ [c] <:+: a ++ s)
    (hc : c ∉ s) : q ++ [c] <:+: a := by
  obtain ⟨l, r, hlr⟩ := h
  have hp : (l ++ q) ++ [c] <+: a ++ s := by
    refine ⟨r, ?_⟩
    rw [← hlr]
    simp [List.append_assoc]
  have hq := shielded_of_append hp hc
  exact (( List.suffix_append l (q ++ [c])).isInfix.trans
    (by rw [← List.append_assoc] at *; exact hq.isInfix))

lemma isInfixAppendLeft {p a b : Str} (h : p <:+: a) : p <:+: a ++ b :=
  h.trans ( List.prefix_append a b).isInfix

/-- Appending a slash-free tail does not change whether a URL contains the
`/dokument/` segment. -/
lemma contains_dok_append {a s : Str} (hs : ('/') ∉ s) :
    pyContains (a ++ s) (S "/dokument/") = pyContains a (S "/dokument/") := by
  have hiff : pyContains (a ++ s) (S "/dokument/") = true ↔
      pyContains a (S "/dokument/") = true := by
    rw [contains_true, contains_true]
    have e : S "/dokument/" = S "/dokument" ++ [('/')] := rfl
    rw [e]
    exact ⟨fun h => isInfixShielded h hs, fun h => isInfixAppendLeft h⟩
  cases hA : pyContains (a ++ s) (S "/dokument/") <;>
    cases hB : pyContains a (S "/dokument/") <;> simp_all

lemma dropWhile_append_all {p : Char → Bool} {l₁ l₂ : Str}
    (h : ∀ a ∈ l₁, p a = true) :
    (l₁ ++ l₂).dropWhile p = l₂.dropWhile p := by
  induction l₁ with
  | nil => rfl
  | cons a t ih =>
    simp only [List.cons_append, List.dropWhile, h a (by simp)]
    exact ih (fun x hx => h x (by simp [hx]))

/-- Computation rule for `rsplit(".", 1)[0]` when the string decomposes at
its last dot. -/
lemma rsplitDotHead_append {a b : Str} (hb : ('.') ∉ b) :
    rsplitDotHead (a ++ ('.') :: b) = a := by
  unfold rsplitDotHead
  rw [if_pos (List.mem_append_right a (List.mem_cons_self _ _))]
  rw [List.reverse_append, List.reverse_cons, List.append_assoc]
  rw [dropWhile_append_all (fun x hx => ?_)]
  · simp [List.dropWhile]
  · have : x ∈ b := List.mem_reverse.mp hx
    simp only [decide_eq_true_eq]
    intro hx2
    exact hb (hx2 ▸ this)

lemma pyDropRight_append {a b : Str} : pyDropRight (a ++ b) b.length = a := by
  unfold pyDropRight
  rw [List.length_append]
  have h : a.length + b.length - b.length = a.length := by omega
  rw [h]
  exact List.take_left' rfl

/-- Two suffixes of the same list are related by length. -/
lemma suffix_of_suffix_le {u s₁ s₂ : Str} (h₁ : s₁ <:+ u) (h₂ : s₂ <:+ u)
    (hl : s₁.length ≤ s₂.length) : s₁ <:+ s₂ := by
  obtain ⟨t₂, rfl⟩ := h₂
  rw [List.suffix_iff_eq_drop] at h₁
  have e2 : List.drop ((t₂ ++ s₂).length - s₁.length) (t₂ ++ s₂) =
      List.drop (s₂.length - s₁.length) s₂ := by
    have hlen : (t₂ ++ s₂).length - s₁.length =
        t₂.length + (s₂.length - s₁.length) := by
      rw [List.length_append]
      omega
    rw [hlen, List.drop_append]
  rw [e2] at h₁
  rw [h₁]
  exact List.drop_suffix _ _

/-! ### Computation rules for the coercion stage -/

lemma ext_cases (f : Fmt) : f.ext = S "text" ∨ f.ext = S "html" ∨ f.ext = S "json" := by
  cases f
  · exact Or.inl rfl
  · exact Or.inr (Or.inl rfl)
  · exact Or.inr (Or.inr rfl)

lemma slash_not_mem_ext (f : Fmt) : ('/') ∉ f.ext := by
  cases f <;> decide

lemma coerceExt_of_ends {a ext' : Str} (f : Fmt)
    (hsfx : ext' = S "text" ∨ ext' = S "html" ∨ ext' = S "json") :
    coerceExt (a ++ ('.') :: ext') f = a ++ S "." ++ f.ext := by
  have hdot : ('.') ∉ ext' := by rcases hsfx with rfl | rfl | rfl <;> decide
  have hstem : rsplitDotHead (a ++ ('.') :: ext') = a := rsplitDotHead_append hdot
  have hcond : (pyEndsWith (a ++ ('.') :: ext') (S ".text") ||
      pyEndsWith (a ++ ('.') :: ext') (S ".html") ||
      pyEndsWith (a ++ ('.') :: ext') (S ".json")) = true := by
    rcases hsfx with rfl | rfl | rfl
    · have h : pyEndsWith (a ++ ('.') :: S "text") (S ".text") = true :=
        endsWith_true.mpr ⟨a, rfl⟩
      simp [h]
    · have h : pyEndsWith (a ++ ('.') :: S "html") (S ".html") = true :=
        endsWith_true.mpr ⟨a, rfl⟩
      simp [h]
    · have h : pyEndsWith (a ++ ('.') :: S "json") (S ".json") = true :=
        endsWith_true.mpr ⟨a, rfl⟩
      simp [h]
  simp [coerceExt, hcond, hstem]

lemma coerceExt_of_none {u : Str} (f : Fmt)
    (h : (pyEndsWith u (S ".text") || pyEndsWith u (S ".html") ||
      pyEndsWith u (S ".json")) = false) :
    coerceExt u f = u := by
  simp [coerceExt, h]

lemma ends_dotext_not_txt {a : Str} (f : Fmt) :
    pyEndsWith (a ++ S "." ++ f.ext) (S ".txt") = false := by
  cases hval : pyEndsWith (a ++ S "." ++ f.ext) (S ".txt")
  · rfl
  · exfalso
    have h₁ : S ".txt" <:+ (a ++ S ".") ++ f.ext := endsWith_true.mp hval
    have h₂ : f.ext <:+ (a ++ S ".") ++ f.ext := List.suffix_append _ _
    have h3 : S ".txt" <:+ f.ext :=
      suffix_of_suffix_le h₁ h₂ (by cases f <;> decide)
    cases f <;> exact absurd h3 (by decide)

lemma txt_excludes {a : Str} :
    pyEndsWith (a ++ S ".txt") (S ".text") = false ∧
    pyEndsWith (a ++ S ".txt") (S ".html") = false ∧
    pyEndsWith (a ++ S ".txt") (S ".json") = false := by
  refine ⟨?_, ?_, ?_⟩ <;>
  · cases hval : pyEndsWith (a ++ S ".txt") _
    · rfl
    · exfalso
      have h₁ := endsWith_true.mp hval
      have h₂ : S ".txt" <:+ a ++ S ".txt" := List.suffix_append _ _
      have h3 := suffix_of_suffix_le h₂ h₁ (by decide)
      exact absurd h3 (by decide)

lemma coerceTxt_of_txt {a : Str} : coerceTxt (a ++ S ".txt") = a ++ S ".text" := by
  have hends : pyEndsWith (a ++ S ".txt") (S ".txt") = true :=
    endsWith_true.mpr ⟨a, rfl⟩
  have hdrop : pyDropRight (a ++ S ".txt") 4 = a := pyDropRight_append
  simp [coerceTxt, hends, hdrop]

lemma coerceTxt_of_not {u : Str} (h : pyEndsWith u (S ".txt") = false) :
    coerceTxt u = u := by
  simp [coerceTxt, h]

lemma coerceFormat_of_not_contains {u : Str} (f : Fmt)
    (h : pyContains u (S "/dokument/") = false) : coerceFormat u f = u := by
  simp [coerceFormat, h]

lemma coerceFormat_of_contains {u : Str} (f : Fmt)
    (h : pyContains u (S "/dokument/") = true) :
    coerceFormat u f = coerceTxt (coerceExt u f) := by
  simp [coerceFormat, h]

/-! ### The canonicalizer always yields an absolute http(s) URL -/

lemma isHttpUrl_append {u s : Str} (h : IsHttpUrl u) : IsHttpUrl (u ++ s) := by
  rcases h with h | h
  · exact Or.inl (h.trans ( List.prefix_append u s))
  · exact Or.inr (h.trans ( List.prefix_append u s))

lemma isHttpUrl_shielded {a s : Str} (hs : ('/') ∉ s) (h : IsHttpUrl (a ++ s)) :
    IsHttpUrl a := by
  rcases h with h | h
  · left
    have e : S "http://" = S "http:/" ++ [('/')] := rfl
    rw [e] at h ⊢
    exact shielded_of_append h hs
  · right
    have e : S "https://" = S "https:/" ++ [('/')] := rfl
    rw [e] at h ⊢
    exact shielded_of_append h hs

lemma isHttpUrl_ne_nil {u : Str} (h : IsHttpUrl u) : u ≠ [] := by
  rcases h with ⟨t, ht⟩ | ⟨t, ht⟩ <;>
  · intro hnil
    rw [hnil] at ht
    rcases List.append_eq_nil.mp ht with ⟨h1, -⟩
    exact absurd h1 (by decide)

lemma branchUrl_isHttp (x : Str) (f : Fmt) : IsHttpUrl (branchUrl x f) := by
  unfold branchUrl
  by_cases h1 : (pyStartsWith x (S "http://") || pyStartsWith x (S "https://")) = true
  · rw [if_pos h1]
    rcases Bool.or_eq_true_iff.mp h1 with h | h
    · exact Or.inl (startsWith_true.mp h)
    · exact Or.inr (startsWith_true.mp h)
  · rw [if_neg h1]
    by_cases h2 : pyStartsWith x (S "//") = true
    · rw [if_pos h2]
      obtain ⟨r, rfl⟩ := startsWith_true.mp h2
      exact Or.inr ⟨r, rfl⟩
    · rw [if_neg h2]
      by_cases h3 : pyStartsWith x (S "/") = true
      · rw [if_pos h3]
        refine Or.inr ?_
        have hp : pyStartsWith (S "https://data.riksdagen.se") (S "https://") = true := rfl
        exact ( startsWith_true.mp hp).trans ( List.prefix_append _ x)
      · rw [if_neg h3]
        refine Or.inr ?_
        have hp : pyStartsWith DOCUMENT_BASE_URL (S "https://") = true := rfl
        exact ((( startsWith_true.mp hp).trans
            ( List.prefix_append _ x)).trans
            ( List.prefix_append _ (S "."))).trans
            ( List.prefix_append _ f.ext)

lemma coerceExt_isHttp {u : Str} (f : Fmt) (h : IsHttpUrl u) :
    IsHttpUrl (coerceExt u f) := by
  cases h1 : pyEndsWith u (S ".text")
  case true =>
    obtain ⟨t, rfl⟩ := endsWith_true.mp h1
    rw [show coerceExt (t ++ S ".text") f = t ++ S "." ++ f.ext from
      coerceExt_of_ends f (Or.inl rfl)]
    exact isHttpUrl_append (isHttpUrl_append (isHttpUrl_shielded (by decide) h))
  case false =>
  cases h2 : pyEndsWith u (S ".html")
  case true =>
    obtain ⟨t, rfl⟩ := endsWith_true.mp h2
    rw [show coerceExt (t ++ S ".html") f = t ++ S "." ++ f.ext from
      coerceExt_of_ends f (Or.inr (Or.inl rfl))]
    exact isHttpUrl_append (isHttpUrl_append (isHttpUrl_shielded (by decide) h))
  case false =>
  cases h3 : pyEndsWith u (S ".json")
  case true =>
    obtain ⟨t, rfl⟩ := endsWith_true.mp h3
    rw [show coerceExt (t ++ S ".json") f = t ++ S "." ++ f.ext from
      coerceExt_of_ends f (Or.inr (Or.inr rfl))]
    exact isHttpUrl_append (isHttpUrl_append (isHttpUrl_shielded (by decide) h))
  case false =>
    rw [coerceExt_of_none f (by simp [h1, h2, h3])]
    exact h

lemma coerceTxt_isHttp {u : Str} (h : IsHttpUrl u) : IsHttpUrl (coerceTxt u) := by
  cases hval : pyEndsWith u (S ".txt")
  · rw [coerceTxt_of_not hval]
    exact h
  · obtain ⟨t, rfl⟩ := endsWith_true.mp hval
    rw [coerceTxt_of_txt]
    exact isHttpUrl_append (isHttpUrl_shielded (by decide) h)

lemma coerceFormat_isHttp {u : Str} (f : Fmt) (h : IsHttpUrl u) :
    IsHttpUrl (coerceFormat u f) := by
  cases hc : pyContains u (S "/dokument/")
  · rw [coerceFormat_of_not_contains f hc]
    exact h
  · rw [coerceFormat_of_contains f hc]
    exact coerceTxt_isHttp (coerceExt_isHttp f h)

lemma normalize_ok {x : Str} (f : Fmt) (hx : x ≠ []) :
    normalize_document_url x f = .ok (coerceFormat (branchUrl x f) f) := by
  unfold normalize_document_url
  rw [if_neg (fun h => hx (List.isEmpty_iff.mp h))]

lemma contains_dok_dotext {t : Str} (f : Fmt) :
    pyContains (t ++ S "." ++ f.ext) (S "/dokument/") =
      pyContains t (S "/dokument/") := by
  rw [contains_dok_append (slash_not_mem_ext f), contains_dok_append (by decide)]

/-- A URL of the shape `t ++ "." ++ fmt.ext` inside `/dokument/` is a fixed
point of the coercion stage for `fmt`. -/
lemma coerce_fixed_point {t : Str} {f : Fmt}
    (hdok : pyContains (t ++ S "." ++ f.ext) (S "/dokument/") = true) :
    coerceFormat (t ++ S "." ++ f.ext) f = t ++ S "." ++ f.ext := by
  have ha : t ++ S "." ++ f.ext = t ++ ('.') :: f.ext := by
    rw [List.append_assoc]
    rfl
  rw [coerceFormat_of_contains f hdok, ha, coerceExt_of_ends f (ext_cases f),
    coerceTxt_of_not (ends_dotext_not_txt f)]
  exact ha

/-- The coercion stage is idempotent except on URLs ending in the legacy
`.txt` extension when the requested format is not `text`. -/
lemma coerceFormat_idem (u : Str) (f : Fmt)
    (hf : f = Fmt.text ∨ pyEndsWith u (S ".txt") = false) :
    coerceFormat (coerceFormat u f) f = coerceFormat u f := by
  cases hdok : pyContains u (S "/dokument/")
  · rw [coerceFormat_of_not_contains f hdok, coerceFormat_of_not_contains f hdok]
  · rw [coerceFormat_of_contains f hdok]
    cases h1 : pyEndsWith u (S ".text")
    case true =>
      obtain ⟨t, rfl⟩ := endsWith_true.mp h1
      rw [show coerceExt (t ++ S ".text") f = t ++ S "." ++ f.ext from
        coerceExt_of_ends f (Or.inl rfl)]
      rw [coerceTxt_of_not (ends_dotext_not_txt f)]
      apply coerce_fixed_point
      rw [contains_dok_dotext f]
      rw [contains_dok_append (by decide)] at hdok
      exact hdok
    case false =>
    cases h2 : pyEndsWith u (S ".html")
    case true =>
      obtain ⟨t, rfl⟩ := endsWith_true.mp h2
      rw [show coerceExt (t ++ S ".html") f = t ++ S "." ++ f.ext from
        coerceExt_of_ends f (Or.inr (Or.inl rfl))]
      rw [coerceTxt_of_not (ends_dotext_not_txt f)]
      apply coerce_fixed_point
      rw [contains_dok_dotext f]
      rw [contains_dok_append (by decide)] at hdok
      exact hdok
    case false =>
    cases h3 : pyEndsWith u (S ".json")
    case true =>
      obtain ⟨t, rfl⟩ := endsWith_true.mp h3
      rw [show coerceExt (t ++ S ".json") f = t ++ S "." ++ f.ext from
        coerceExt_of_ends f (Or.inr (Or.inr rfl))]
      rw [coerceTxt_of_not (ends_dotext_not_txt f)]
      apply coerce_fixed_point
      rw [contains_dok_dotext f]
      rw [contains_dok_append (by decide)] at hdok
      exact hdok
    case false =>
      rw [coerceExt_of_none f (by simp [h1, h2, h3])]
      cases h4 : pyEndsWith u (S ".txt")
      case false =>
        rw [coerceTxt_of_not h4, coerceFormat_of_contains f hdok,
          coerceExt_of_none f (by simp [h1, h2, h3]), coerceTxt_of_not h4]
      case true =>
        rcases hf with rfl | hff
        · obtain ⟨t, rfl⟩ := endsWith_true.mp h4
          rw [coerceTxt_of_txt]
          have ha : t ++ S ".text" = t ++ S "." ++ Fmt.text.ext := by
            rw [List.append_assoc]
            rfl
          rw [ha]
          apply coerce_fixed_point
          rw [contains_dok_dotext]
          rw [contains_dok_append (by decide)] at hdok
          exact hdok
        · rw [hff] at h4
          cases h4

/-! ### Claim theorems for the URL canonicalizer -/

/-- Claim C1 counterexample: `canonicalize("/dokument/HD096.txt", "json")`
does not end in `.json` — the code performs the extension replacement
before the legacy `.txt` normalization, so the result ends in `.text`. -/
theorem txt_first_normalization_cex :
    normalize_document_url (S "/dokument/HD096.txt") Fmt.json =
      .ok (S "https://data.riksdagen.se/dokument/HD096.text") ∧
    pyEndsWith (S "https://data.riksdagen.se/dokument/HD096.text")
      (S ".json") = false := ⟨rfl, rfl⟩

/-- Claim C1 (amended): for every input whose branch-normalized URL contains
the `/dokument/` segment and ends in the legacy `.txt` extension, the
canonicalizer rewrites `.txt` to `.text` after the replacement step, so the
result is the URL with `.txt` replaced by `.text` and it ends in `.text`
regardless of the requested format. -/
theorem txt_normalized_to_text (x : Str) (f : Fmt) (hx : x ≠ [])
    (hdok : pyContains (branchUrl x f) (S "/dokument/") = true)
    (htxt : pyEndsWith (branchUrl x f) (S ".txt") = true) :
    normalize_document_url x f =
      .ok (pyDropRight (branchUrl x f) 4 ++ S ".text") ∧
    pyEndsWith (pyDropRight (branchUrl x f) 4 ++ S ".text") (S ".text") = true := by
  obtain ⟨t, ht⟩ := endsWith_true.mp htxt
  constructor
  · rw [normalize_ok f hx, ← ht]
    rw [coerceFormat_of_contains f (ht ▸ hdok)]
    rw [coerceExt_of_none f
      (by simp [(txt_excludes (a := t)).1, (txt_excludes (a := t)).2.1,
        (txt_excludes (a := t)).2.2])]
    rw [coerceTxt_of_txt]
    have hdr : pyDropRight (t ++ S ".txt") 4 = t := pyDropRight_append
    rw [hdr]
  · exact endsWith_true.mpr ⟨pyDropRight (branchUrl x f) 4, rfl⟩

/-- Claim C1 witness at `x = "/dokument/HD096.txt"`, `f = json`. -/
theorem txt_normalized_to_text_witness :
    normalize_document_url (S "/dokument/HD096.txt") Fmt.json =
      .ok (pyDropRight (branchUrl (S "/dokument/HD096.txt") Fmt.json) 4 ++
        S ".text") ∧
    pyEndsWith (pyDropRight (branchUrl (S "/dokument/HD096.txt") Fmt.json) 4 ++
      S ".text") (S ".text") = true :=
  txt_normalized_to_text (S "/dokument/HD096.txt") Fmt.json
    (by decide) rfl rfl

/-- Claim C2 counterexample: canonicalization is not idempotent on the
legacy-`.txt` input `/dokument/HD096.txt` with format `json` — the first
pass yields a `.text` URL and the second pass converts it to `.json`. -/
theorem canonicalize_not_idempotent_cex :
    normalize_document_url (S "/dokument/HD096.txt") Fmt.json =
      .ok (S "https://data.riksdagen.se/dokument/HD096.text") ∧
    normalize_document_url (S "https://data.riksdagen.se/dokument/HD096.text")
      Fmt.json =
      .ok (S "https://data.riksdagen.se/dokument/HD096.json") ∧
    S "https://data.riksdagen.se/dokument/HD096.json" ≠
      S "https://data.riksdagen.se/dokument/HD096.text" :=
  ⟨rfl, rfl, by decide⟩

/-- Claim C2 (amended): canonicalization is idempotent for every format when
the branch-normalized URL does not end in the legacy `.txt` extension, and
unconditionally for the `text` format. -/
theorem canonicalize_idempotent (x y : Str) (f : Fmt)
    (hf : f = Fmt.text ∨ pyEndsWith (branchUrl x f) (S ".txt") = false)
    (hy : normalize_document_url x f = .ok y) :
    normalize_document_url y f = .ok y := by
  by_cases hx : x = []
  · subst hx
    unfold normalize_document_url at hy
    simp at hy
  · rw [normalize_ok f hx] at hy
    injection hy with hy'
    subst hy'
    have hhttp : IsHttpUrl (coerceFormat (branchUrl x f) f) :=
      coerceFormat_isHttp f (branchUrl_isHttp x f)
    have hne : coerceFormat (branchUrl x f) f ≠ [] := isHttpUrl_ne_nil hhttp
    rw [normalize_ok f hne]
    have hbr : branchUrl (coerceFormat (branchUrl x f) f) f =
        coerceFormat (branchUrl x f) f := by
      unfold branchUrl
      rw [if_pos ?_]
      rcases hhttp with h | h
      · exact Bool.or_eq_true_iff.mpr (Or.inl (startsWith_true.mpr h))
      · exact Bool.or_eq_true_iff.mpr (Or.inr (startsWith_true.mpr h))
    rw [hbr, coerceFormat_idem (branchUrl x f) f hf]

/-- Claim C2 witness at `x = "HD096"`, `f = json` (an already-canonical URL
round-trips unchanged). -/
theorem canonicalize_idempotent_witness :
    normalize_document_url (S "https://data.riksdagen.se/dokument/HD096.json")
      Fmt.json =
      .ok (S "https://data.riksdagen.se/dokument/HD096.json") :=
  canonicalize_idempotent (S "HD096") _ Fmt.json (Or.inr rfl) rfl

/-- Claim C3: the branch cascade tries, in priority order: absolute scheme
kept as-is, protocol-relative input prefixed with the secure scheme,
root-relative path prefixed with the canonical content-host origin, and
otherwise the bare-identifier construction
`DOCUMENT_BASE_URL ++ id ++ "." ++ fmt`, which the coercion stage then
leaves unchanged. -/
theorem branch_priority (x : Str) (f : Fmt) (hx : x ≠ []) :
    ((pyStartsWith x (S "http://") = true ∨ pyStartsWith x (S "https://") = true) →
      branchUrl x f = x) ∧
    (pyStartsWith x (S "http://") = false → pyStartsWith x (S "https://") = false →
      pyStartsWith x (S "//") = true → branchUrl x f = S "https:" ++ x) ∧
    (pyStartsWith x (S "http://") = false → pyStartsWith x (S "https://") = false →
      pyStartsWith x (S "//") = false → pyStartsWith x (S "/") = true →
      branchUrl x f = S "https://data.riksdagen.se" ++ x) ∧
    (pyStartsWith x (S "http://") = false → pyStartsWith x (S "https://") = false →
      pyStartsWith x (S "//") = false → pyStartsWith x (S "/") = false →
      normalize_document_url x f =
        .ok (DOCUMENT_BASE_URL ++ x ++ S "." ++ f.ext)) := by
  refine ⟨?_, ?_, ?_, ?_⟩
  · intro h
    unfold branchUrl
    rw [if_pos (Bool.or_eq_true_iff.mpr h)]
  · intro h1 h2 h3
    unfold branchUrl
    rw [if_neg (by simp [h1, h2]), if_pos h3]
  · intro h1 h2 h3 h4
    unfold branchUrl
    rw [if_neg (by simp [h1, h2]), if_neg (by simp [h3]), if_pos h4]
  · intro h1 h2 h3 h4
    have hb : branchUrl x f = DOCUMENT_BASE_URL ++ x ++ S "." ++ f.ext := by
      unfold branchUrl
      rw [if_neg (by simp [h1, h2]), if_neg (by simp [h3]), if_neg (by simp [h4])]
    rw [normalize_ok f hx, hb]
    have hdok : pyContains ((DOCUMENT_BASE_URL ++ x) ++ S "." ++ f.ext)
        (S "/dokument/") = true := by
      rw [contains_dok_dotext f]
      exact contains_true.mpr (isInfixAppendLeft (contains_true.mp rfl))
    exact congrArg Except.ok (coerce_fixed_point hdok)

/-- Claim C3 witness at the bare identifier `"HD096"` with format `text`. -/
theorem branch_priority_witness :
    normalize_document_url (S "HD096") Fmt.text =
      .ok (DOCUMENT_BASE_URL ++ S "HD096" ++ S "." ++ Fmt.text.ext) ∧
    pyEndsWith (DOCUMENT_BASE_URL ++ S "HD096" ++ S "." ++ Fmt.text.ext)
      (S "HD096.text") = true :=
  ⟨(branch_priority (S "HD096") Fmt.text (by decide)).2.2.2 rfl rfl rfl rfl, rfl⟩

/-- Claim C5: an empty identifier-or-URL input makes the canonicalizer fail
with the invalid-reference error, and `fetch_document` surfaces this to the
caller as an immediate empty-string result rather than a structured error. -/
theorem empty_reference_rejected (f : Fmt) :
    normalize_document_url [] f = .error "Missing dok_id or document URL" ∧
    fetch_document_plan [] f = .immediate [] :=
  ⟨rfl, rfl⟩

/-- Claim C10: for every non-empty input and every format the canonicalizer
succeeds and returns a non-empty URL starting with `http://` or `https://`. -/
theorem canonicalize_absolute_url (x : Str) (f : Fmt) (hx : x ≠ []) :
    normalize_document_url x f = .ok (coerceFormat (branchUrl x f) f) ∧
    coerceFormat (branchUrl x f) f ≠ [] ∧
    (pyStartsWith (coerceFormat (branchUrl x f) f) (S "http://") = true ∨
      pyStartsWith (coerceFormat (branchUrl x f) f) (S "https://") = true) := by
  have hhttp : IsHttpUrl (coerceFormat (branchUrl x f) f) :=
    coerceFormat_isHttp f (branchUrl_isHttp x f)
  refine ⟨normalize_ok f hx, isHttpUrl_ne_nil hhttp, ?_⟩
  rcases hhttp with h | h
  · exact Or.inl (startsWith_true.mpr h)
  · exact Or.inr (startsWith_true.mpr h)

/-- Claim C10 witness at `x = "HD096"`, `f = text`. -/
theorem canonicalize_absolute_url_witness :
    normalize_document_url (S "HD096") Fmt.text =
      .ok (coerceFormat (branchUrl (S "HD096") Fmt.text) Fmt.text) ∧
    coerceFormat (branchUrl (S "HD096") Fmt.text) Fmt.text ≠ [] ∧
    (pyStartsWith (coerceFormat (branchUrl (S "HD096") Fmt.text) Fmt.text)
        (S "http://") = true ∨
      pyStartsWith (coerceFormat (branchUrl (S "HD096") Fmt.text) Fmt.text)
        (S "https://") = true) :=
  canonicalize_absolute_url (S "HD096") Fmt.text (by decide)

/-! ### Claim theorems for the parameter normalizer -/

lemma remove_empty_then_strip_mem {l : List (Str × PVal)} {k : Str} {v : PVal} :
    (k, v) ∈ remove_empty_then_strip l ↔
      ∃ v₀, (k, v₀) ∈ l ∧ v₀ ≠ PVal.str [] ∧ v = stripVal v₀ := by
  unfold remove_empty_then_strip
  constructor
  · intro h
    obtain ⟨⟨k', v₀⟩, hmem, heq⟩ := List.mem_map.mp h
    obtain ⟨hmem₀, hfil⟩ := List.mem_filter.mp hmem
    rw [Prod.mk.injEq] at heq
    obtain ⟨rfl, rfl⟩ := heq
    exact ⟨v₀, hmem₀, by simpa using hfil, rfl⟩
  · rintro ⟨v₀, hmem, hne, rfl⟩
    exact List.mem_map.mpr
      ⟨(k, v₀), List.mem_filter.mpr ⟨hmem, by simpa using hne⟩, rfl⟩

lemma typkoder_params_mem {r : TaxeringsenhetRequest} {k : Str} {v : PVal} :
    (k, v) ∈ typkoder_make_request_params r ↔
      ∃ v₀, (k, some v₀) ∈ typkoder_raw_params r ∧ v₀ ≠ PVal.str [] ∧
        v = stripVal v₀ := by
  unfold typkoder_make_request_params
  rw [remove_empty_then_strip_mem]
  constructor
  · rintro ⟨v₀, hmem, hne, rfl⟩
    obtain ⟨⟨k', ov⟩, hmem₀, heq⟩ := List.mem_filterMap.mp hmem
    obtain ⟨v₁, hov, hveq⟩ := Option.map_eq_some'.mp heq
    have hov' : ov = some v₁ := hov
    have hveq' : (k', v₁) = (k, v₀) := hveq
    rw [Prod.mk.injEq] at hveq'
    obtain ⟨rfl, rfl⟩ := hveq'
    rw [hov'] at hmem₀
    exact ⟨v₁, hmem₀, hne, rfl⟩
  · rintro ⟨v₀, hmem, hne, rfl⟩
    exact ⟨v₀, List.mem_filterMap.mpr ⟨(k, some v₀), hmem, rfl⟩, hne, rfl⟩

/-- Claim C4 counterexample: a whitespace-only `typkod` survives the
empty-string filter (which runs before stripping) and is sent as an
empty-string parameter. -/
theorem params_empty_string_cex :
    (S "typkod", PVal.str []) ∈ typkoder_make_request_params
      { typkod := some (S " "), beskrivning := some [], limit := 10,
        offset := 0, callback := none } := by decide

/-- Claim C4 (amended): the normalized parameter mapping contains exactly the
entries whose stored value is set (not `None`) and non-empty before
stripping; retained string values are stripped of surrounding whitespace and
non-string values pass through unchanged. Because emptiness is checked
before stripping, a whitespace-only supplied string is retained and
normalizes to an empty-string entry. -/
theorem params_normalization (r : TaxeringsenhetRequest)
    (dumped : List (Str × PVal)) (k : Str) (v : PVal) :
    ((k, v) ∈ typkoder_make_request_params r ↔
      ∃ v₀, (k, some v₀) ∈ typkoder_raw_params r ∧ v₀ ≠ PVal.str [] ∧
        v = stripVal v₀) ∧
    ((k, v) ∈ fastighetsskatt_make_request_params dumped ↔
      ∃ v₀, (k, v₀) ∈ dumped ∧ v₀ ≠ PVal.str [] ∧ v = stripVal v₀) :=
  ⟨typkoder_params_mem, remove_empty_then_strip_mem⟩

/-! ### Claim theorems for response shaping and transport -/

/-- Claim C6: a decoded payload that lacks the `dokumentlista` collection key
decodes successfully to a response with `dokumentlista = None`, and both
list tools then return the empty-string sentinel (a normal outcome, not an
error). -/
theorem missing_collection_sentinel
    (p₁ : List (Str × DokumentlistaJson)) (p₂ : List (Str × LedamotJson))
    (h₁ : p₁.lookup (S "dokumentlista") = none)
    (h₂ : p₂.lookup (S "dokumentlista") = none) :
    decodeDokumentResponse p₁ = .ok { dokumentlista := none } ∧
    list_documents_result { dokumentlista := none } = .inl [] ∧
    decodeLedamotResponse p₂ = .ok { dokumentlista := none } ∧
    list_members_result { dokumentlista := none } = .inl [] := by
  refine ⟨?_, rfl, ?_, rfl⟩
  · unfold decodeDokumentResponse
    rw [h₁]
  · unfold decodeLedamotResponse
    rw [h₂]

/-- Claim C6 witness at the empty payload. -/
theorem missing_collection_sentinel_witness :
    decodeDokumentResponse [] = .ok { dokumentlista := none } ∧
    list_documents_result { dokumentlista := none } = .inl [] ∧
    decodeLedamotResponse [] = .ok { dokumentlista := none } ∧
    list_members_result { dokumentlista := none } = .inl [] :=
  missing_collection_sentinel [] [] rfl rfl

/-- Claim C7: for every non-2xx upstream status, `raise_for_status` fails
and each tool's `make_request` propagates the transport error unrecovered,
with no fallback value (the pipeline consumes exactly one response). -/
theorem non2xx_transport_error (status : Nat)
    (h : status < 200 ∨ 300 ≤ status) :
    raise_for_status status = .error (.httpStatus status) ∧
    (∀ p : List (Str × DokumentlistaJson),
      dokument_make_request status p = .error (.transport (.httpStatus status))) ∧
    (∀ p : List (Str × LedamotJson),
      ledamot_make_request status p = .error (.transport (.httpStatus status))) ∧
    (∀ resp : TaxeringsenhetReponse,
      typkoder_make_request status resp =
        .error (.transport (.httpStatus status))) := by
  have hrs : raise_for_status status = .error (.httpStatus status) := by
    unfold raise_for_status
    rw [if_neg (by omega)]
  refine ⟨hrs, fun p => ?_, fun p => ?_, fun resp => ?_⟩
  · unfold dokument_make_request
    rw [hrs]
  · unfold ledamot_make_request
    rw [hrs]
  · unfold typkoder_make_request
    rw [hrs]

/-- Claim C7 witness at status 404. -/
theorem non2xx_transport_error_witness :
    raise_for_status 404 = .error (.httpStatus 404) ∧
    (∀ p : List (Str × DokumentlistaJson),
      dokument_make_request 404 p = .error (.transport (.httpStatus 404))) ∧
    (∀ p : List (Str × LedamotJson),
      ledamot_make_request 404 p = .error (.transport (.httpStatus 404))) ∧
    (∀ resp : TaxeringsenhetReponse,
      typkoder_make_request 404 resp = .error (.transport (.httpStatus 404))) :=
  non2xx_transport_error 404 (by omega)

/-- Claim C8 counterexample: the two Skatteverket call sites pass no
`timeout=` argument at all, so not every outbound GET carries the fixed
30-unit timeout. -/
theorem timeout_claim_cex :
    typkoder_request_config.timeoutSeconds = none ∧
    typkoder_request_config.timeoutSeconds ≠ some 30 ∧
    fastighetsskatt_request_config.timeoutSeconds = none ∧
    fastighetsskatt_request_config.timeoutSeconds ≠ some 30 := by
  refine ⟨rfl, ?_, rfl, ?_⟩ <;> decide

/-- Claim C8 (amended): every outbound GET call site sets a non-empty
`Accept` header; the five Riksdagen call sites pass `timeout=30.0`, while
the two Skatteverket call sites pass no timeout argument. -/
theorem request_config_audit :
    dokument_list_request_config.timeoutSeconds = some 30 ∧
    dokument_list_request_config.accept ≠ [] ∧
    (∀ (fmt : Fmt) (url : Str),
      (fetch_document_request_config fmt url).timeoutSeconds = some 30 ∧
      (fetch_document_request_config fmt url).accept ≠ []) ∧
    kalender_list_request_config.timeoutSeconds = some 30 ∧
    kalender_list_request_config.accept ≠ [] ∧
    (∀ (fmt : Fmt) (url : Str),
      (fetch_kalender_request_config fmt url).timeoutSeconds = some 30 ∧
      (fetch_kalender_request_config fmt url).accept ≠ []) ∧
    ledamot_list_request_config.timeoutSeconds = some 30 ∧
    ledamot_list_request_config.accept ≠ [] ∧
    typkoder_request_config.timeoutSeconds = none ∧
    typkoder_request_config.accept ≠ [] ∧
    fastighetsskatt_request_config.timeoutSeconds = none ∧
    fastighetsskatt_request_config.accept ≠ [] := by
  have hd : ∀ (fmt : Fmt) (url : Str),
      (fetch_document_request_config fmt url).timeoutSeconds = some 30 ∧
      (fetch_document_request_config fmt url).accept ≠ [] := by
    intro fmt url
    cases fmt
    case text =>
      exact ⟨rfl, (by decide : S "text/plain, text/html; q=0.9, */*; q=0.8" ≠ [])⟩
    case html =>
      exact ⟨rfl, (by decide : S "text/plain, text/html; q=0.9, */*; q=0.8" ≠ [])⟩
    case json =>
      exact ⟨rfl, (by decide : S "application/json" ≠ [])⟩
  have hk : ∀ (fmt : Fmt) (url : Str),
      (fetch_kalender_request_config fmt url).timeoutSeconds = some 30 ∧
      (fetch_kalender_request_config fmt url).accept ≠ [] := by
    intro fmt url
    cases fmt
    case text =>
      exact ⟨rfl, (by decide : S "text/plain, text/html; q=0.9, */*; q=0.8" ≠ [])⟩
    case html =>
      exact ⟨rfl, (by decide : S "text/plain, text/html; q=0.9, */*; q=0.8" ≠ [])⟩
    case json =>
      exact ⟨rfl, (by decide : S "application/json" ≠ [])⟩
  exact ⟨rfl, by decide, hd, rfl, by decide, hk, rfl, by decide, rfl, by decide,
    rfl, by decide⟩

/-! ### Claim theorems for pagination bounds -/

/-- Claim C9: for all integer pagination arguments the caller supplies to
the list tools, the request actually constructed carries the class defaults
`_limit = 10` and `_offset = 0` — pydantic silently drops the underscore
constructor keywords — and the carried values satisfy the provider-specific
bounds: limit within 1..100 for the taxeringsenhet typkod dataset and
1..500 for the fastighetsskatt dataset, offset non-negative. -/
theorem pagination_bounds (limit offset : Int)
    (r₁ : TaxeringsenhetRequest) (r₂ : FastighetsskattAvgiftRequest) :
    (list_taxeringsenhet_typkoder_request limit offset = .ok r₁ →
      r₁.limit = 10 ∧ r₁.offset = 0 ∧
      1 ≤ r₁.limit ∧ r₁.limit ≤ 100 ∧ 0 ≤ r₁.offset) ∧
    (list_fastighetsskatt_avgift_request limit offset = r₂ →
      r₂.limit = 10 ∧ r₂.offset = 0 ∧
      1 ≤ r₂.limit ∧ r₂.limit ≤ 500 ∧ 0 ≤ r₂.offset) := by
  constructor
  · intro h
    have h'' := Except.ok.inj h
    subst h''
    exact ⟨rfl, rfl, by decide, by decide, by decide⟩
  · intro h
    have h' : mkFastighetsskattAvgiftRequest (some []) (some []) (some [])
        (some []) (some []) (some []) (some []) = r₂ := h
    subst h'
    exact ⟨rfl, rfl, by decide, by decide, by decide⟩

/-- Claim C9 witness at the out-of-range caller arguments `limit = 1000`,
`offset = -5`: the carried pagination values are still the in-bounds
defaults. -/
theorem pagination_bounds_witness :
    ((10 : Int) = 10 ∧ (0 : Int) = 0 ∧ 1 ≤ (10 : Int) ∧ (10 : Int) ≤ 100 ∧
      0 ≤ (0 : Int)) ∧
    ((10 : Int) = 10 ∧ (0 : Int) = 0 ∧ 1 ≤ (10 : Int) ∧ (10 : Int) ≤ 500 ∧
      0 ≤ (0 : Int)) :=
  ⟨(pagination_bounds 1000 (-5)
      { typkod := some [], beskrivning := some [], limit := 10, offset := 0,
        callback := none }
      { uppdateringsdatum := some [], gruppering := some [],
        statistikterm := some [], antal := some [], belopp := some [],
        grupperingsvarde := some [], inkomstar := some [], limit := 10,
        offset := 0 }).1 rfl,
   (pagination_bounds 1000 (-5)
      { typkod := some [], beskrivning := some [], limit := 10, offset := 0,
        callback := none }
      { uppdateringsdatum := some [], gruppering := some [],
        statistikterm := some [], antal := some [], belopp := some [],
        grupperingsvarde := some [], inkomstar := some [], limit := 10,
        offset := 0 }).2 rfl⟩

end McpDataportal
